import Mathlib

/-!
Verification of the registry-transport negotiation code
(vendor/github.com/google/go-containerregistry/pkg/v1/remote/transport/transport.go)
against its specification.

The shallow embedding below translates the Go source into Lean.  The only
Go file of this repository available is transport.go (the orchestrator
NewWithContext and the Wrapper type); its collaborators (the prober ping,
the userAgent / scheme / basic / bearer transports) live in sibling files
that are not part of the repository snapshot, so those are modelled from
the specification and marked as such in their doc comments.

Network effects (the ping call and the bearer token exchange bt.refresh)
are modelled by oracle arguments: the caller of the Lean function supplies
the outcome each network call would have produced, and the function
records, in order, which network calls it actually performed.
-/

/-- String constants (keys and markers) used throughout the embedding. -/
def realmKey : String := "realm"

/-- The service challenge-parameter key. -/
def serviceKey : String := "service"

/-- The Authorization header key. -/
def authKey : String := "Authorization"

/-- The User-Agent header key. -/
def uaKey : String := "User-Agent"

/-- The empty string, the user-agent value NewWithContext passes to NewUserAgent. -/
def emptyStr : String := ""

/-- Separator between username and password in a Basic credential. -/
def colonStr : String := ":"

/-- Marker put in front of a Basic credential in the Authorization header. -/
def basicMarker : String := "Basic "

/-- Marker put in front of a bearer token in the Authorization header. -/
def bearerMarker : String := "Bearer "

/-- Models name.Registry (external package): an opaque registry identity with
its two string forms, RegistryStr() (the host:port registry portion) and
String() (the canonical string form). -/
structure Registry where
  registryStr : String
  str : String
deriving DecidableEq, Repr

/-- Models authn.Authenticator (external package) restricted to what the
embedding observes: the Basic credentials it supplies. -/
structure Authenticator where
  username : String
  password : String
deriving DecidableEq, Repr

/-- An HTTP request as observed by this code: a URL scheme, host, path and
a header list (first binding of a key wins on lookup). -/
structure Request where
  scheme : String
  host : String
  path : String
  headers : List (String × String)
deriving DecidableEq, Repr

/-- An HTTP response as observed by this code: a status code and a body. -/
structure Response where
  statusCode : Nat
  body : String
deriving DecidableEq, Repr

/-- The error outcomes of negotiation and round-tripping, as values
(Go returns them as error values built with fmt.Errorf or passed through). -/
inductive GoError where
  | probeFailed (msg : String)
  | malformedChallenge (params : List (String × String))
  | unrecognizedChallenge (challenge : String)
  | exchangeFailed (msg : String)
  | transportFailure (msg : String)
deriving DecidableEq, Repr

/-- The decorator chain built by NewWithContext, one constructor per
transport type of the package plus an opaque base transport supplied by
the caller.  Mirrors the Go structs: userAgentTransport, schemeTransport,
basicTransport, bearerTransport (its cached token is an Option, none
meaning the token field was never set), and Wrapper. -/
inductive RoundTripper where
  | base (id : Nat)
  | userAgentTransport (inner : RoundTripper) (ua : String)
  | schemeTransport (scheme : String) (registry : Registry) (inner : RoundTripper)
  | basicTransport (inner : RoundTripper) (auth : Authenticator) (target : String)
  | bearerTransport (inner : RoundTripper) (basic : Authenticator) (realm : String)
      (registry : Registry) (service : String) (scopes : List String)
      (scheme : String) (token : Option String)
  | wrapper (inner : RoundTripper)
deriving DecidableEq, Repr

/-- Modelled from the spec: the ProbeResult produced by the Challenge
Prober (ping, not under src/): the discovered scheme, the raw challenge
scheme token, and the parsed challenge parameter map (keys unique). -/
structure PingResp where
  scheme : String
  challenge : String
  parameters : List (String × String)
deriving DecidableEq, Repr

/-- Modelled from the spec: challenge.Canonical from the prober file (not
under src/); challenge kinds are compared case-insensitively, so Canonical
lowercases the raw challenge scheme token. -/
def canonical (c : String) : String := String.mk (c.data.map Char.toLower)

/-- Modelled from the spec: the challenge kind of a 200 probe response
(no authentication challenge header at all, hence the empty token). -/
def anonymousKind : String := ""

/-- Modelled from the spec: the canonical Basic challenge kind. -/
def basicKind : String := "basic"

/-- Modelled from the spec: the canonical Bearer challenge kind. -/
def bearerKind : String := "bearer"

/-- Models the type check on line 59 of transport.go: whether the
transport is immediately a userAgentTransport. -/
def isUserAgentTransport : RoundTripper → Bool
  | .userAgentTransport _ _ => true
  | _ => false

/-- Modelled from the spec: NewUserAgent (useragent file, not under src/)
wraps a transport in a userAgentTransport carrying the given user-agent. -/
def NewUserAgent (t : RoundTripper) (ua : String) : RoundTripper :=
  RoundTripper.userAgentTransport t ua

/-- Lines 58 to 61 of transport.go: wrap t with a useragent transport
unless it already is one. -/
def ensureUserAgent (t : RoundTripper) : RoundTripper :=
  if isUserAgentTransport t then t else NewUserAgent t emptyStr

/-- The network calls NewWithContext can perform, recorded in order. -/
inductive NetEvent where
  | pingCall
  | refreshCall
deriving DecidableEq, Repr

/-- The pair of return values of NewWithContext (Go returns
(http.RoundTripper, error)), together with the ordered list of network
calls the execution performed. -/
structure NegotiationResult where
  tr : Option RoundTripper
  err : Option GoError
  events : List NetEvent
deriving DecidableEq, Repr

/-- Lines 38 to 103 of transport.go: NewWithContext.  The outcome of the
ping network call and of the bearer seed exchange bt.refresh are supplied
as oracles (pingResult, refreshOutcome); on a successful refresh the
oracle yields the token that refresh caches in the bearerTransport. -/
def NewWithContext (reg : Registry) (auth : Authenticator) (t : RoundTripper)
    (scopes : List String) (pingResult : Except GoError PingResp)
    (refreshOutcome : Except GoError String) : NegotiationResult :=
  match pingResult with
  | .error e => { tr := none, err := some e, events := [.pingCall] }
  | .ok pr =>
    let t1 := ensureUserAgent t
    let t2 := RoundTripper.schemeTransport pr.scheme reg t1
    if canonical pr.challenge = anonymousKind then
      { tr := some (.wrapper t2), err := none, events := [.pingCall] }
    else if canonical pr.challenge = basicKind then
      { tr := some (.wrapper (.basicTransport t2 auth reg.registryStr)),
        err := none, events := [.pingCall] }
    else if canonical pr.challenge = bearerKind then
      match pr.parameters.lookup realmKey with
      | none =>
        { tr := none, err := some (.malformedChallenge pr.parameters),
          events := [.pingCall] }
      | some realm =>
        let service := (pr.parameters.lookup serviceKey).getD reg.str
        match refreshOutcome with
        | .error e =>
          { tr := none, err := some e, events := [.pingCall, .refreshCall] }
        | .ok tok =>
          { tr := some (.wrapper (.bearerTransport t2 auth realm reg service
              scopes pr.scheme (some tok))),
            err := none, events := [.pingCall, .refreshCall] }
    else
      { tr := none, err := some (.unrecognizedChallenge pr.challenge),
        events := [.pingCall] }

/-- Prepend one header binding to a request (lookup sees the newest
binding first). -/
def addHeader (r : Request) (k v : String) : Request :=
  { r with headers := (k, v) :: r.headers }

/-- The Basic Authorization header value derived from an authenticator
(the base64 encoding is irrelevant to the properties proved here, so the
credential pair itself stands for it). -/
def basicAuthValue (a : Authenticator) : String :=
  basicMarker ++ a.username ++ colonStr ++ a.password

/-- The Bearer Authorization header value for a cached token (an unset
token yields the bare marker). -/
def bearerAuthValue (token : Option String) : String :=
  bearerMarker ++ token.getD emptyStr

/-- Modelled from the spec: the request each decorator chain delivers to
its base transport on the first (non-retry) attempt.  Per the spec,
userAgentTransport adds a User-Agent header, schemeTransport overwrites
the request scheme with the discovered one, basicTransport and
bearerTransport add an Authorization header, and Wrapper (from src)
delegates verbatim.  The bearer 401 retry loop is modelled separately by
bearerRoundTrip. -/
def transform : RoundTripper → Request → Request
  | .base _, r => r
  | .userAgentTransport inner ua, r => transform inner (addHeader r uaKey ua)
  | .schemeTransport s _ inner, r => transform inner { r with scheme := s }
  | .basicTransport inner a _, r =>
      transform inner (addHeader r authKey (basicAuthValue a))
  | .bearerTransport inner _ _ _ _ _ _ token, r =>
      transform inner (addHeader r authKey (bearerAuthValue token))
  | .wrapper inner, r => transform inner r

/-- A transport whose transform never changes the request scheme. -/
def schemePreserving (t : RoundTripper) : Prop :=
  ∀ r : Request, (transform t r).scheme = r.scheme

/-- A transport whose transform never adds, removes or changes an
Authorization header. -/
def authTransparent (t : RoundTripper) : Prop :=
  ∀ r : Request, (transform t r).headers.lookup authKey = r.headers.lookup authKey

/-- Modelled from the spec: the per-request flow of the Bearer Auth
Decorator (bearer file, not under src/).  resp1 is the inner transport
outcome for the first attempt, exchange the outcome of the token exchange
triggered by a 401, resp2 the inner transport outcome for the single
retry.  Returns the result given to the caller together with the number
of exchange calls and the number of inner requests performed:
a non-401 first response is returned unchanged with no exchange; a 401
triggers one exchange, whose failure is surfaced directly, and whose
success is followed by exactly one retry whose outcome is returned
as-is (a second 401 included). -/
def bearerRoundTrip (resp1 : Except GoError Response)
    (exchange : Except GoError String) (resp2 : Except GoError Response) :
    Except GoError Response × Nat × Nat :=
  match resp1 with
  | .error e => (.error e, 0, 1)
  | .ok r1 =>
    if r1.statusCode = 401 then
      match exchange with
      | .error e => (.error e, 1, 1)
      | .ok _ => (resp2, 1, 2)
    else (.ok r1, 0, 1)

/-- Lines 107 to 109 of transport.go: the Wrapper struct, its inner
RoundTripper modelled extensionally by its round-trip function. -/
structure Wrapper where
  inner : Request → Except GoError Response

/-- Lines 112 to 114 of transport.go: RoundTrip delegates to the inner
RoundTripper. -/
def Wrapper.RoundTrip (w : Wrapper) (req : Request) : Except GoError Response :=
  w.inner req

/-- Extract the service field of the bearerTransport inside a returned
transport, looking through the Wrapper. -/
def bearerService : RoundTripper → Option String
  | .wrapper inner => bearerService inner
  | .bearerTransport _ _ _ _ service _ _ _ => some service
  | _ => none

/-- The transport immediately inside the schemeTransport of a decorator
chain, looking through the Wrapper and the auth decorators above it. -/
def underScheme : RoundTripper → Option RoundTripper
  | .wrapper inner => underScheme inner
  | .basicTransport inner _ _ => underScheme inner
  | .bearerTransport inner _ _ _ _ _ _ _ => underScheme inner
  | .schemeTransport _ _ inner => some inner
  | _ => none

theorem lookup_addHeader_ne (r : Request) (k v q : String) (h : (q == k) = false) :
    (addHeader r k v).headers.lookup q = r.headers.lookup q := by
  simp [addHeader, List.lookup, h]

theorem addHeader_scheme (r : Request) (k v : String) :
    (addHeader r k v).scheme = r.scheme := rfl

theorem ensureUserAgent_schemePreserving (t : RoundTripper)
    (ht : schemePreserving t) : schemePreserving (ensureUserAgent t) := by
  unfold ensureUserAgent
  split
  · exact ht
  · intro r
    simpa [NewUserAgent, transform, addHeader_scheme] using ht (addHeader r uaKey emptyStr)

theorem ensureUserAgent_authTransparent (t : RoundTripper)
    (ht : authTransparent t) : authTransparent (ensureUserAgent t) := by
  unfold ensureUserAgent
  split
  · exact ht
  · intro r
    have h1 := ht (addHeader r uaKey emptyStr)
    have h2 : (addHeader r uaKey emptyStr).headers.lookup authKey
        = r.headers.lookup authKey := by
      refine lookup_addHeader_ne r uaKey emptyStr authKey ?h
      simp [authKey, uaKey]
    simpa [NewUserAgent, transform, h2] using h1

theorem newWithContext_shape (reg : Registry) (auth : Authenticator)
    (t : RoundTripper) (scopes : List String) (pr : PingResp)
    (refreshOutcome : Except GoError String) :
    (NewWithContext reg auth t scopes (Except.ok pr) refreshOutcome).tr = none
    ∨ (NewWithContext reg auth t scopes (Except.ok pr) refreshOutcome).tr
        = some (RoundTripper.wrapper
            (RoundTripper.schemeTransport pr.scheme reg (ensureUserAgent t)))
    ∨ (NewWithContext reg auth t scopes (Except.ok pr) refreshOutcome).tr
        = some (RoundTripper.wrapper (RoundTripper.basicTransport
            (RoundTripper.schemeTransport pr.scheme reg (ensureUserAgent t))
            auth reg.registryStr))
    ∨ ∃ realm service tok,
        (NewWithContext reg auth t scopes (Except.ok pr) refreshOutcome).tr
          = some (RoundTripper.wrapper (RoundTripper.bearerTransport
              (RoundTripper.schemeTransport pr.scheme reg (ensureUserAgent t))
              auth realm reg service scopes pr.scheme (some tok))) := by
  unfold NewWithContext
  dsimp only
  split
  · exact Or.inr (Or.inl rfl)
  · split
    · exact Or.inr (Or.inr (Or.inl rfl))
    · split
      · split
        · exact Or.inl rfl
        · split
          · exact Or.inl rfl
          · exact Or.inr (Or.inr (Or.inr ⟨_, _, _, rfl⟩))
      · exact Or.inl rfl

/-- C10: NewWithContext returns exactly one of a non-nil transport or a
non-nil error: on every failure path (probe error, missing realm, seed
exchange failure, unrecognized challenge) the transport is nil, and on
every success path the error is nil. -/
theorem claim_C10 (reg : Registry) (auth : Authenticator) (t : RoundTripper)
    (scopes : List String) (pingResult : Except GoError PingResp)
    (refreshOutcome : Except GoError String) :
    ((∃ trp, (NewWithContext reg auth t scopes pingResult refreshOutcome).tr = some trp)
      ∧ (NewWithContext reg auth t scopes pingResult refreshOutcome).err = none)
    ∨ ((NewWithContext reg auth t scopes pingResult refreshOutcome).tr = none
      ∧ ∃ e, (NewWithContext reg auth t scopes pingResult refreshOutcome).err = some e) := by
  cases pingResult with
  | error e => exact Or.inr ⟨rfl, e, rfl⟩
  | ok pr =>
    unfold NewWithContext
    dsimp only
    split
    · exact Or.inl ⟨⟨_, rfl⟩, rfl⟩
    · split
      · exact Or.inl ⟨⟨_, rfl⟩, rfl⟩
      · split
        · split
          · exact Or.inr ⟨rfl, _, rfl⟩
          · split
            · exact Or.inr ⟨rfl, _, rfl⟩
            · exact Or.inl ⟨⟨_, rfl⟩, rfl⟩
        · exact Or.inr ⟨rfl, _, rfl⟩

/-- C1: a bearer challenge whose parameter map has no realm key makes
NewWithContext fail with the malformed-challenge error built from the
parameter map, returning no transport. -/
theorem claim_C1 (reg : Registry) (auth : Authenticator) (t : RoundTripper)
    (scopes : List String) (pingResult : Except GoError PingResp)
    (refreshOutcome : Except GoError String) (pr : PingResp)
    (hping : pingResult = Except.ok pr)
    (hbearer : canonical pr.challenge = bearerKind)
    (hrealm : pr.parameters.lookup realmKey = none) :
    (NewWithContext reg auth t scopes pingResult refreshOutcome).tr = none
    ∧ (NewWithContext reg auth t scopes pingResult refreshOutcome).err
        = some (GoError.malformedChallenge pr.parameters) := by
  subst hping
  constructor <;>
    simp [NewWithContext, hbearer, hrealm, anonymousKind, basicKind, bearerKind]

/-- C6: a challenge whose canonical kind is neither none, basic nor bearer
makes NewWithContext fail with the unrecognized-challenge error built from
the raw challenge, returning no transport. -/
theorem claim_C6 (reg : Registry) (auth : Authenticator) (t : RoundTripper)
    (scopes : List String) (pingResult : Except GoError PingResp)
    (refreshOutcome : Except GoError String) (pr : PingResp)
    (hping : pingResult = Except.ok pr)
    (h1 : ¬ canonical pr.challenge = anonymousKind)
    (h2 : ¬ canonical pr.challenge = basicKind)
    (h3 : ¬ canonical pr.challenge = bearerKind) :
    (NewWithContext reg auth t scopes pingResult refreshOutcome).tr = none
    ∧ (NewWithContext reg auth t scopes pingResult refreshOutcome).err
        = some (GoError.unrecognizedChallenge pr.challenge) := by
  subst hping
  constructor <;> simp [NewWithContext, h1, h2, h3]

/-- C9: Wrapper.RoundTrip is extensionally the inner round-trip function:
it returns exactly the response and error the inner transport produces for
the same request, and in the structural decorator model the wrapper
constructor adds no transformation either. -/
theorem claim_C9 (w : Wrapper) (req : Request) :
    Wrapper.RoundTrip w req = w.inner req
    ∧ ∀ (t : RoundTripper) (r : Request),
        transform (RoundTripper.wrapper t) r = transform t r :=
  ⟨rfl, fun _ _ => rfl⟩

/-- C3: when the first inner response of a bearer-decorated round trip is
a 401 and the triggered token exchange succeeds, exactly one exchange and
exactly one retry happen and the retry outcome is returned as-is; in
particular a second 401 is returned to the caller unchanged. -/
theorem claim_C3 (r1 : Response) (h1 : r1.statusCode = 401)
    (exchange : Except GoError String) (tok : String)
    (hex : exchange = Except.ok tok) (resp2 : Except GoError Response) :
    bearerRoundTrip (Except.ok r1) exchange resp2 = (resp2, 1, 2)
    ∧ ∀ r2 : Response, resp2 = Except.ok r2 → r2.statusCode = 401 →
        (bearerRoundTrip (Except.ok r1) exchange resp2).1 = Except.ok r2 := by
  subst hex
  refine ⟨?_, ?_⟩
  · simp [bearerRoundTrip, h1]
  · intro r2 h2 _
    subst h2
    simp [bearerRoundTrip, h1]

/-- C2: on a bearer challenge carrying a realm, NewWithContext performs
exactly one seed exchange after the ping and before returning; a failed
exchange is returned as the negotiation error with no transport, and only
a successful exchange yields a transport, whose bearer decorator carries
the token that exchange produced (never an unset token). -/
theorem claim_C2 (reg : Registry) (auth : Authenticator) (t : RoundTripper)
    (scopes : List String) (pingResult : Except GoError PingResp)
    (refreshOutcome : Except GoError String) (pr : PingResp) (realm : String)
    (hping : pingResult = Except.ok pr)
    (hbearer : canonical pr.challenge = bearerKind)
    (hrealm : pr.parameters.lookup realmKey = some realm) :
    (NewWithContext reg auth t scopes pingResult refreshOutcome).events
        = [NetEvent.pingCall, NetEvent.refreshCall]
    ∧ (∀ e, refreshOutcome = Except.error e →
        (NewWithContext reg auth t scopes pingResult refreshOutcome).tr = none
        ∧ (NewWithContext reg auth t scopes pingResult refreshOutcome).err = some e)
    ∧ ∀ tok, refreshOutcome = Except.ok tok →
        (NewWithContext reg auth t scopes pingResult refreshOutcome).err = none
        ∧ (NewWithContext reg auth t scopes pingResult refreshOutcome).tr
            = some (RoundTripper.wrapper (RoundTripper.bearerTransport
                (RoundTripper.schemeTransport pr.scheme reg (ensureUserAgent t))
                auth realm reg ((pr.parameters.lookup serviceKey).getD reg.str)
                scopes pr.scheme (some tok))) := by
  subst hping
  refine ⟨?_, ?_, ?_⟩
  · cases refreshOutcome <;>
      simp [NewWithContext, hbearer, hrealm, anonymousKind, basicKind, bearerKind]
  · rintro e rfl
    constructor <;>
      simp [NewWithContext, hbearer, hrealm, anonymousKind, basicKind, bearerKind]
  · rintro tok rfl
    constructor <;>
      simp [NewWithContext, hbearer, hrealm, anonymousKind, basicKind, bearerKind]

/-- C7: on a bearer challenge carrying a realm, the bearer decorator is
built with the service from the service parameter when present, and with
the registry's canonical string form when absent. -/
theorem claim_C7 (reg : Registry) (auth : Authenticator) (t : RoundTripper)
    (scopes : List String) (pingResult : Except GoError PingResp)
    (refreshOutcome : Except GoError String) (pr : PingResp) (realm tok : String)
    (hping : pingResult = Except.ok pr)
    (hbearer : canonical pr.challenge = bearerKind)
    (hrealm : pr.parameters.lookup realmKey = some realm)
    (hrefresh : refreshOutcome = Except.ok tok) :
    (pr.parameters.lookup serviceKey = none →
      ∃ trp, (NewWithContext reg auth t scopes pingResult refreshOutcome).tr = some trp
        ∧ bearerService trp = some reg.str)
    ∧ ∀ s, pr.parameters.lookup serviceKey = some s →
      ∃ trp, (NewWithContext reg auth t scopes pingResult refreshOutcome).tr = some trp
        ∧ bearerService trp = some s := by
  subst hping
  subst hrefresh
  have hres : (NewWithContext reg auth t scopes (Except.ok pr) (Except.ok tok)).tr
      = some (RoundTripper.wrapper (RoundTripper.bearerTransport
          (RoundTripper.schemeTransport pr.scheme reg (ensureUserAgent t))
          auth realm reg ((pr.parameters.lookup serviceKey).getD reg.str)
          scopes pr.scheme (some tok))) := by
    simp [NewWithContext, hbearer, hrealm, anonymousKind, basicKind, bearerKind]
  refine ⟨fun hs => ⟨_, hres, ?_⟩, fun s hs => ⟨_, hres, ?_⟩⟩
  · simp [bearerService, hs]
  · simp [bearerService, hs]

/-- C4: on a 200 probe (no challenge), NewWithContext succeeds with the
Transparent Wrapper around the scheme-selected transport and no
authentication decorator, and the resulting transport adds no
Authorization header to any outgoing request (given a base transport that
itself leaves the Authorization header alone). -/
theorem claim_C4 (reg : Registry) (auth : Authenticator) (t : RoundTripper)
    (scopes : List String) (pingResult : Except GoError PingResp)
    (refreshOutcome : Except GoError String) (pr : PingResp)
    (hping : pingResult = Except.ok pr)
    (hanon : canonical pr.challenge = anonymousKind)
    (ht : authTransparent t) :
    (NewWithContext reg auth t scopes pingResult refreshOutcome).err = none
    ∧ (NewWithContext reg auth t scopes pingResult refreshOutcome).tr
        = some (RoundTripper.wrapper
            (RoundTripper.schemeTransport pr.scheme reg (ensureUserAgent t)))
    ∧ ∀ trp, (NewWithContext reg auth t scopes pingResult refreshOutcome).tr = some trp →
        authTransparent trp := by
  subst hping
  have herr : (NewWithContext reg auth t scopes (Except.ok pr) refreshOutcome).err
      = none := by
    simp [NewWithContext, hanon]
  have htr : (NewWithContext reg auth t scopes (Except.ok pr) refreshOutcome).tr
      = some (RoundTripper.wrapper
          (RoundTripper.schemeTransport pr.scheme reg (ensureUserAgent t))) := by
    simp [NewWithContext, hanon]
  refine ⟨herr, htr, ?_⟩
  intro trp htrp
  rw [htr] at htrp
  obtain rfl : _ = trp := Option.some.inj htrp
  intro r
  have h1 := ensureUserAgent_authTransparent t ht { r with scheme := pr.scheme }
  simpa [transform] using h1

/-- C5: every transport successfully returned by NewWithContext routes
every request through the scheme selector configured with the probed
scheme, so (for a base transport that leaves the scheme alone) the scheme
delivered to the base transport is always the probed one, never the one
of the individual request. -/
theorem claim_C5 (reg : Registry) (auth : Authenticator) (t : RoundTripper)
    (scopes : List String) (pingResult : Except GoError PingResp)
    (refreshOutcome : Except GoError String) (pr : PingResp)
    (hping : pingResult = Except.ok pr)
    (ht : schemePreserving t) :
    ∀ trp, (NewWithContext reg auth t scopes pingResult refreshOutcome).tr = some trp →
      ∀ r : Request, (transform trp r).scheme = pr.scheme := by
  subst hping
  intro trp htrp r
  have hua := ensureUserAgent_schemePreserving t ht
  rcases newWithContext_shape reg auth t scopes pr refreshOutcome with
    h | h | h | ⟨realm, service, tok, h⟩
  · rw [h] at htrp
    exact Option.noConfusion htrp
  · rw [h] at htrp
    obtain rfl : _ = trp := Option.some.inj htrp
    simpa [transform] using hua { r with scheme := pr.scheme }
  · rw [h] at htrp
    obtain rfl : _ = trp := Option.some.inj htrp
    simpa [transform] using
      hua { addHeader r authKey (basicAuthValue auth) with scheme := pr.scheme }
  · rw [h] at htrp
    obtain rfl : _ = trp := Option.some.inj htrp
    simpa [transform] using
      hua { addHeader r authKey (bearerAuthValue (some tok)) with scheme := pr.scheme }

/-- C8: NewWithContext adds a user-agent decorator exactly when the
supplied transport is not already immediately one (type check on the
immediate wrapper), never double-wraps, and every successfully returned
transport carries that once-ensured user-agent transport directly under
its scheme selector. -/
theorem claim_C8 (reg : Registry) (auth : Authenticator) (t : RoundTripper)
    (scopes : List String) (pingResult : Except GoError PingResp)
    (refreshOutcome : Except GoError String) (pr : PingResp)
    (hping : pingResult = Except.ok pr) :
    (isUserAgentTransport t = true → ensureUserAgent t = t)
    ∧ (isUserAgentTransport t = false → ensureUserAgent t = NewUserAgent t emptyStr)
    ∧ ensureUserAgent (ensureUserAgent t) = ensureUserAgent t
    ∧ ∀ trp, (NewWithContext reg auth t scopes pingResult refreshOutcome).tr = some trp →
        underScheme trp = some (ensureUserAgent t) := by
  subst hping
  refine ⟨?_, ?_, ?_, ?_⟩
  · intro h
    simp [ensureUserAgent, h]
  · intro h
    simp [ensureUserAgent, h]
  · by_cases h : isUserAgentTransport t = true
    · simp [ensureUserAgent, h]
    · have h2 : isUserAgentTransport t = false := by simpa using h
      have h3 : ensureUserAgent t = NewUserAgent t emptyStr := by
        simp [ensureUserAgent, h2]
      rw [h3]
      simp [ensureUserAgent, NewUserAgent, isUserAgentTransport]
  · intro trp htrp
    rcases newWithContext_shape reg auth t scopes pr refreshOutcome with
      h | h | h | ⟨realm, service, tok, h⟩
    · rw [h] at htrp
      exact Option.noConfusion htrp
    · rw [h] at htrp
      obtain rfl : _ = trp := Option.some.inj htrp
      simp [underScheme]
    · rw [h] at htrp
      obtain rfl : _ = trp := Option.some.inj htrp
      simp [underScheme]
    · rw [h] at htrp
      obtain rfl : _ = trp := Option.some.inj htrp
      simp [underScheme]

/-- Concrete registry host for witnesses. -/
def wHost : String := "registry.example"

/-- Concrete registry for witnesses. -/
def wReg : Registry := { registryStr := wHost, str := wHost }

/-- Concrete username for witnesses. -/
def wUser : String := "u"

/-- Concrete password for witnesses. -/
def wPass : String := "p"

/-- Concrete authenticator for witnesses. -/
def wAuth : Authenticator := { username := wUser, password := wPass }

/-- Concrete scope list for witnesses. -/
def wScopes : List String := []

/-- Concrete base transport for witnesses. -/
def wBase : RoundTripper := RoundTripper.base 0

/-- Concrete probed scheme for witnesses. -/
def wHttps : String := "https"

/-- Concrete request scheme (differs from the probed one) for witnesses. -/
def wHttp : String := "http"

/-- Concrete token yielded by a successful exchange in witnesses. -/
def wTok : String := "tok"

/-- Concrete raw Bearer challenge token for witnesses. -/
def wBearerRaw : String := "Bearer"

/-- Concrete unrecognized raw challenge token for witnesses. -/
def wDigestRaw : String := "Digest"

/-- Concrete realm value for witnesses. -/
def wRealmVal : String := "https://auth.example/token"

/-- Concrete service value for witnesses. -/
def wServiceVal : String := "service.example"

/-- Concrete 200-probe result for witnesses. -/
def wPrAnon : PingResp :=
  { scheme := wHttps, challenge := emptyStr, parameters := [] }

/-- Concrete bearer probe result missing the realm parameter. -/
def wPrBearerNoRealm : PingResp :=
  { scheme := wHttps, challenge := wBearerRaw, parameters := [(serviceKey, wServiceVal)] }

/-- Concrete bearer probe result with a realm and no service. -/
def wPrBearer : PingResp :=
  { scheme := wHttps, challenge := wBearerRaw, parameters := [(realmKey, wRealmVal)] }

/-- Concrete bearer probe result with realm and service. -/
def wPrBearerSvc : PingResp :=
  { scheme := wHttps, challenge := wBearerRaw,
    parameters := [(realmKey, wRealmVal), (serviceKey, wServiceVal)] }

/-- Concrete unrecognized-challenge probe result for witnesses. -/
def wPrDigest : PingResp :=
  { scheme := wHttps, challenge := wDigestRaw, parameters := [] }

/-- Concrete successful refresh outcome for witnesses. -/
def wRefreshOk : Except GoError String := Except.ok wTok

/-- Concrete 401 response for witnesses. -/
def wResp401 : Response := { statusCode := 401, body := emptyStr }

/-- Concrete request for witnesses. -/
def wReq : Request :=
  { scheme := wHttp, host := wHost, path := emptyStr, headers := [] }

/-- Concrete bearer decorator chain built for wPrBearerSvc. -/
def wBearerTrSvc : RoundTripper :=
  RoundTripper.wrapper (RoundTripper.bearerTransport
    (RoundTripper.schemeTransport wHttps wReg (ensureUserAgent wBase))
    wAuth wRealmVal wReg wServiceVal wScopes wHttps (some wTok))

/-- Witness for C1 at a concrete realm-less bearer challenge. -/
theorem claim_C1_witness :
    (NewWithContext wReg wAuth wBase wScopes (Except.ok wPrBearerNoRealm) wRefreshOk).tr = none
    ∧ (NewWithContext wReg wAuth wBase wScopes (Except.ok wPrBearerNoRealm) wRefreshOk).err
        = some (GoError.malformedChallenge wPrBearerNoRealm.parameters) :=
  claim_C1 wReg wAuth wBase wScopes (Except.ok wPrBearerNoRealm) wRefreshOk
    wPrBearerNoRealm rfl (by decide) (by decide)

/-- Witness for C2 at a concrete bearer challenge with a realm. -/
theorem claim_C2_witness :
    (NewWithContext wReg wAuth wBase wScopes (Except.ok wPrBearer) wRefreshOk).events
      = [NetEvent.pingCall, NetEvent.refreshCall] :=
  (claim_C2 wReg wAuth wBase wScopes (Except.ok wPrBearer) wRefreshOk wPrBearer
    wRealmVal rfl (by decide) (by decide)).1

/-- Witness for C3 at a concrete double-401 exchange. -/
theorem claim_C3_witness :
    bearerRoundTrip (Except.ok wResp401) wRefreshOk (Except.ok wResp401)
      = (Except.ok wResp401, 1, 2) :=
  (claim_C3 wResp401 (by decide) wRefreshOk wTok rfl (Except.ok wResp401)).1

/-- Witness for C4 at a concrete 200 probe. -/
theorem claim_C4_witness :
    (NewWithContext wReg wAuth wBase wScopes (Except.ok wPrAnon) wRefreshOk).err = none
    ∧ (NewWithContext wReg wAuth wBase wScopes (Except.ok wPrAnon) wRefreshOk).tr
        = some (RoundTripper.wrapper
            (RoundTripper.schemeTransport wPrAnon.scheme wReg (ensureUserAgent wBase))) :=
  have h := claim_C4 wReg wAuth wBase wScopes (Except.ok wPrAnon) wRefreshOk wPrAnon
    rfl (by decide) (by intro r; rfl)
  ⟨h.1, h.2.1⟩

/-- Witness for C5 at a concrete 200 probe and a request whose own scheme
differs from the probed one. -/
theorem claim_C5_witness :
    (transform (RoundTripper.wrapper (RoundTripper.schemeTransport wPrAnon.scheme wReg
        (ensureUserAgent wBase))) wReq).scheme = wPrAnon.scheme :=
  claim_C5 wReg wAuth wBase wScopes (Except.ok wPrAnon) wRefreshOk wPrAnon rfl
    (by intro r; rfl)
    (RoundTripper.wrapper (RoundTripper.schemeTransport wPrAnon.scheme wReg
      (ensureUserAgent wBase)))
    (by decide) wReq

/-- Witness for C6 at a concrete Digest challenge. -/
theorem claim_C6_witness :
    (NewWithContext wReg wAuth wBase wScopes (Except.ok wPrDigest) wRefreshOk).tr = none
    ∧ (NewWithContext wReg wAuth wBase wScopes (Except.ok wPrDigest) wRefreshOk).err
        = some (GoError.unrecognizedChallenge wPrDigest.challenge) :=
  claim_C6 wReg wAuth wBase wScopes (Except.ok wPrDigest) wRefreshOk wPrDigest
    rfl (by decide) (by decide) (by decide)

/-- Witness for C7 at a concrete bearer challenge carrying a service. -/
theorem claim_C7_witness :
    (NewWithContext wReg wAuth wBase wScopes (Except.ok wPrBearerSvc) wRefreshOk).tr
      = some wBearerTrSvc ∧ bearerService wBearerTrSvc = some wServiceVal := by
  obtain ⟨trp, h1, h2⟩ := (claim_C7 wReg wAuth wBase wScopes (Except.ok wPrBearerSvc)
      wRefreshOk wPrBearerSvc wRealmVal wTok rfl (by decide) (by decide) rfl).2
      wServiceVal (by decide)
  have h0 : (NewWithContext wReg wAuth wBase wScopes (Except.ok wPrBearerSvc) wRefreshOk).tr
      = some wBearerTrSvc := by decide
  rw [h0] at h1
  obtain rfl : wBearerTrSvc = trp := Option.some.inj h1
  exact ⟨h0, h2⟩

/-- Witness for C8 at a concrete base transport that is not yet a
user-agent transport. -/
theorem claim_C8_witness :
    ensureUserAgent (ensureUserAgent wBase) = ensureUserAgent wBase :=
  (claim_C8 wReg wAuth wBase wScopes (Except.ok wPrAnon) wRefreshOk wPrAnon rfl).2.2.1
